import Mathlib

/-!
Shallow embedding of the CDP (Chrome DevTools Protocol) WebSocket shim:
the `initCDPSession` message/close handlers, `handleCDPMethod` dispatcher and
the `handleBrowser` / `handleTarget` / `handlePage` / `handleRuntime` /
`handleInput` domain handlers, together with the `sendEvent` / `sendResponse` /
`sendError` frame emitters.

The automation backend (the `@cloudflare/puppeteer` `Browser` and `Page`
handles) is out of scope of the repository and is modelled as an oracle
(`Backend`) supplying the outcome of each backend call; `crypto.randomUUID()`
is modelled by a `fresh` string argument and `Date.now()/1000` by a `now`
argument threaded into dispatch.
-/

namespace CDPShim

/-- JSON-like values as serialized onto the transport by `JSON.stringify`.
Fields whose value is `undefined` are dropped by `JSON.stringify`, so the
embedding omits such fields from `obj` lists at each construction site. -/
inductive JVal where
  | null
  | bool (b : Bool)
  | num (n : Int)
  | str (s : String)
  | arr (xs : List JVal)
  | obj (fields : List (String × JVal))

/-- Outbound frames: `sendResponse` emits `{id, result}`, `sendError` emits
`{id, error:{code, message}}`, `sendEvent` emits `{method, params}`. -/
inductive Frame where
  | response (id : Int) (result : JVal)
  | error (id : Int) (code : Int) (message : String)
  | event (method : String) (params : JVal)

/-- True exactly on event frames (`{method, params}`, no `id`). -/
def isEvent : Frame → Bool
  | .event _ _ => true
  | _ => false

/-- True on the response and error frames addressed to request id `i`. -/
def isReplyTo (i : Int) : Frame → Bool
  | .response j _ => j == i
  | .error j _ _ => j == i
  | .event _ _ => false

/-- True exactly on `{id, error:{code, message}}` frames. -/
def isErrorFrame : Frame → Bool
  | .error _ _ _ => true
  | _ => false

/-- State of one backend page handle, as observable through the backend calls
the shim issues (`page.url()`, `page.title()`). -/
structure PageState where
  url : String
  title : String
deriving DecidableEq

/-- The `params` object of a request, restricted to the fields the shim reads.
A request without `params` is modelled by the all-`none` default, matching
`request.params || {}`. -/
structure Params where
  targetId : Option String := none
  url : Option String := none
  expression : Option String := none
  format : Option String := none
  quality : Option Nat := none
  clip : Option (Int × Int × Int × Int) := none
  fullPage : Option Bool := none
deriving DecidableEq

/-- A parsed request frame `{id, method, params}`. -/
structure CDPRequest where
  id : Int
  method : String
  params : Params
deriving DecidableEq

/-- An inbound WebSocket message: either its payload fails `JSON.parse`
(`malformed`) or it parses to a request frame. -/
inductive InboundMsg where
  | malformed
  | request (req : CDPRequest)

/-- The `CDPSession` record. `pages` models the `Map<string, Page>` as an
association list in insertion order (JS `Map` iteration order); the unused
`nodeMap`/`objectMap`/`pendingRequests` fields of the source (their handlers
are commented out) are carried as plain data. `browserCloseCount` models the
number of `session.browser.close()` invocations issued to the backend. -/
structure CDPSession where
  pages : List (String × PageState)
  defaultTargetId : String
  nodeIdCounter : Nat
  nodeMap : List (Nat × String)
  objectIdCounter : Nat
  scriptsToEvaluateOnNewDocument : List (String × String)
  extraHTTPHeaders : List (String × String)
  requestInterceptionEnabled : Bool
  browserCloseCount : Nat

/-- `Map.get`: first (unique) binding of the key. -/
def mapGet {α : Type} : List (String × α) → String → Option α
  | [], _ => none
  | (k2, v) :: rest, k => if k2 = k then some v else mapGet rest k

/-- `Map.set`: update in place if the key is present, else append. -/
def mapSet {α : Type} : List (String × α) → String → α → List (String × α)
  | [], k, v => [(k, v)]
  | (k2, v2) :: rest, k, v =>
    if k2 = k then (k, v) :: rest else (k2, v2) :: mapSet rest k v

/-- `Map.delete`: remove the key (keys are unique in a JS `Map`). -/
def mapDelete {α : Type} : List (String × α) → String → List (String × α)
  | [], _ => []
  | (k2, v) :: rest, k =>
    if k2 = k then mapDelete rest k else (k2, v) :: mapDelete rest k

/-- Split a character list at the first `.`, as `String.prototype.split`
produces the segment before and the remainder after the separator. -/
def breakDot : List Char → List Char × Option (List Char)
  | [] => ([], none)
  | c :: cs =>
    if c = '.' then ([], some cs)
    else
      let (d, r) := breakDot cs
      (c :: d, r)

/-- The destructuring `const [domain, command] = method.split(".")`: the
domain is the segment before the first `.`, the command the next segment
(`none` models JS `undefined` when there is no `.`). -/
def splitMethod (m : String) : String × Option String :=
  match breakDot m.data with
  | (d, none) => (String.mk d, none)
  | (d, some rest) => (String.mk d, some (String.mk (breakDot rest).1))

/-- The command part of a method. An absent segment is JS `undefined`, which
behaves in every handler exactly like the string literal it prints as: it
matches no `case` label and interpolates as `undefined` in error messages. -/
def commandOf (m : String) : String := ((splitMethod m).2).getD "undefined"

/-- JS truthiness on an optional string: `undefined` and `""` are falsy. -/
def strOpt : Option String → Option String
  | some u => if u = "" then none else some u
  | none => none

/-- The `a || d` idiom on an optional string parameter. -/
def strOr (o : Option String) (d : String) : String := (strOpt o).getD d

/-- `const targetId = (params.targetId as string) || session.defaultTargetId`. -/
def resolveTargetId (s : CDPSession) (params : Params) : String :=
  strOr params.targetId s.defaultTargetId

/-- Take host characters up to the first `/`. -/
def takeUntilSlash : List Char → List Char
  | [] => []
  | c :: cs => if c = '/' then [] else c :: takeUntilSlash cs

/-- Scan for the `://` separator, accumulating the scheme in `acc`. -/
def urlOriginAux : List Char → List Char → Option String
  | acc, ':' :: '/' :: '/' :: rest =>
    some (String.mk (acc.reverse ++ [':', '/', '/'] ++ takeUntilSlash rest))
  | acc, c :: cs => urlOriginAux (c :: acc) cs
  | _, [] => none

/-- Modelled from the spec: `new URL(u).origin` for the URLs the shim passes
(scheme `://` host, else the opaque origin `"null"`, e.g. for `about:blank`). -/
def urlOrigin (u : String) : String := (urlOriginAux [] u.data).getD "null"

/-- Outcome of the `page.evaluate` call made by `Runtime.evaluate`: the
evaluate promise itself may reject (`thrown`), or the function evaluated in
the page context returns either `{type: typeof res, value: res}` (`ok`) or,
when `eval(expr)` threw, the caught-error object (`pageError`). -/
inductive EvalOutcome where
  | thrown (msg : String)
  | ok (ty : String) (v : JVal)
  | pageError (msg : String)

/-- The result object built by the function the shim evaluates in the page
context: `{type, value}` on success, `{type:"string", value: message,
isError: true}` when `eval(expr)` threw. -/
structure InnerEvalResult where
  type : String
  value : JVal
  isError : Bool

/-- The object produced in the page context, for each non-rejecting outcome. -/
def innerEvalResult : EvalOutcome → Option InnerEvalResult
  | .thrown _ => none
  | .ok ty v => some ⟨ty, v, false⟩
  | .pageError msg => some ⟨"string", .str msg, true⟩

/-- The shim repackages the page-context result as
`{ result: { type: result.type, value: result.value } }`: only `type` and
`value` are copied. -/
def evaluateResponse (r : InnerEvalResult) : JVal :=
  .obj [("result", .obj [("type", .str r.type), ("value", r.value)])]

/-- Options object passed to `page.screenshot`. -/
structure ScreenshotOpts where
  type : String
  quality : Option Nat
  clip : Option (Int × Int × Int × Int)
  fullPage : Option Bool
deriving DecidableEq

/-- The automation backend (out of scope of the repository, spec section 1):
an oracle giving the outcome of each backend call the shim issues.
`Except.error` models a rejected promise with the thrown error message.
`goto` yields the `page.goto` response (`none` models a `null` response,
`some ok` models `response.ok()`) together with the page state after
navigation; `closeBrowser` is indexed by how many `browser.close()` calls
preceded it. -/
structure Backend where
  newPage : Except String PageState
  goto : PageState → String → Except String (Option Bool × PageState)
  reloadPage : PageState → Except String PageState
  screenshot : PageState → ScreenshotOpts → Except String String
  evalJS : PageState → String → EvalOutcome
  closePage : PageState → Except String Unit
  closeBrowser : Nat → Except String Unit

/-- Result of one domain-handler invocation: the session after its mutations
(which persist even when the handler then throws), the event frames it sent
through `sendEvent` before returning or throwing, and its returned result or
thrown error message. -/
structure HandlerOut where
  session : CDPSession
  events : List Frame
  result : Except String JVal

/-- The static result of `Browser.getVersion`. -/
def browserVersionResult : JVal :=
  .obj [("protocolVersion", .str "1.3"),
        ("product", .str "Cloudflare-Browser-Rendering"),
        ("revision", .str "cloudflare"),
        ("userAgent", .str "Mozilla/5.0 Cloudflare Browser Rendering"),
        ("jsVersion", .str "V8")]

/-- `handleBrowser`: `getVersion` returns static metadata; `close` invokes
`session.browser.close()` (counted) and returns `{}` or propagates the thrown
error; any other command throws `Unknown Browser method: <command>`. -/
def handleBrowser (s : CDPSession) (b : Backend) (command : String) :
    HandlerOut :=
  if command = "getVersion" then
    ⟨s, [], .ok browserVersionResult⟩
  else if command = "close" then
    match b.closeBrowser s.browserCloseCount with
    | .ok _ =>
      ⟨{ s with browserCloseCount := s.browserCloseCount + 1 }, [], .ok (.obj [])⟩
    | .error m =>
      ⟨{ s with browserCloseCount := s.browserCloseCount + 1 }, [], .error m⟩
  else
    ⟨s, [], .error ("Unknown Browser method: " ++ command)⟩

/-- The element of a `Target.getTargets` / `Target.targetCreated` payload for
one registry entry. -/
def targetInfoJson (targetId : String) (p : PageState) : JVal :=
  .obj [("targetId", .str targetId), ("type", .str "page"),
        ("title", .str p.title), ("url", .str p.url),
        ("attached", .bool true)]

/-- `handleTarget`. `createTarget` opens a backend page, registers it under
the fresh identifier before the optional `goto` (so a thrown navigation leaves
the target registered, as in the source where `pages.set` precedes `goto`),
emits `Target.targetCreated` and returns the identifier. `closeTarget` closes
the backend page, removes the registry entry and emits
`Target.targetDestroyed`, throwing `Target not found` when the id is absent.
`getTargets` enumerates the registry; `attachToTarget` acknowledges with
`{sessionId: params.targetId}` (an `undefined` id is dropped by
`JSON.stringify`); other commands throw `Unknown Target method`. -/
def handleTarget (s : CDPSession) (b : Backend) (fresh : String)
    (command : String) (params : Params) : HandlerOut :=
  if command = "createTarget" then
    match b.newPage with
    | .error m => ⟨s, [], .error m⟩
    | .ok page =>
      if strOr params.url "about:blank" = "about:blank" then
        ⟨{ s with pages := mapSet s.pages fresh page },
         [.event "Target.targetCreated"
            (.obj [("targetInfo", targetInfoJson fresh page)])],
         .ok (.obj [("targetId", .str fresh)])⟩
      else
        match b.goto page (strOr params.url "about:blank") with
        | .error m => ⟨{ s with pages := mapSet s.pages fresh page }, [], .error m⟩
        | .ok (_, page2) =>
          ⟨{ s with pages := mapSet (mapSet s.pages fresh page) fresh page2 },
           [.event "Target.targetCreated"
              (.obj [("targetInfo", targetInfoJson fresh page2)])],
           .ok (.obj [("targetId", .str fresh)])⟩
  else if command = "closeTarget" then
    match params.targetId with
    | none => ⟨s, [], .error "Target not found: undefined"⟩
    | some targetId =>
      match mapGet s.pages targetId with
      | none => ⟨s, [], .error ("Target not found: " ++ targetId)⟩
      | some page =>
        match b.closePage page with
        | .error m => ⟨s, [], .error m⟩
        | .ok _ =>
          ⟨{ s with pages := mapDelete s.pages targetId },
           [.event "Target.targetDestroyed"
              (.obj [("targetId", .str targetId)])],
           .ok (.obj [("success", .bool true)])⟩
  else if command = "getTargets" then
    ⟨s, [],
     .ok (.obj [("targetInfos",
                 .arr (s.pages.map (fun kv => targetInfoJson kv.1 kv.2)))])⟩
  else if command = "attachToTarget" then
    ⟨s, [],
     .ok (.obj (match params.targetId with
                | some t => [("sessionId", .str t)]
                | none => []))⟩
  else
    ⟨s, [], .error ("Unknown Target method: " ++ command)⟩

/-- The `Page.frameNavigated` event emitted by `Page.navigate`: its frame id
is `session.defaultTargetId`. -/
def frameNavigatedEvent (s : CDPSession) (pageUrl : String) : Frame :=
  .event "Page.frameNavigated"
    (.obj [("frame",
            .obj [("id", .str s.defaultTargetId),
                  ("url", .str pageUrl),
                  ("securityOrigin", .str (urlOrigin pageUrl)),
                  ("mimeType", .str "text/html")])])

/-- The result object of `Page.navigate`: `frameId` is
`session.defaultTargetId`, `loaderId` a fresh `crypto.randomUUID()`, and
`errorText` is present exactly when `response?.ok()` is not truthy. -/
def navigateResult (s : CDPSession) (fresh : String) (resp : Option Bool) :
    JVal :=
  .obj ([("frameId", .str s.defaultTargetId), ("loaderId", .str fresh)] ++
        (if resp = some true then []
         else [("errorText", .str "Navigation failed")]))

/-- `handlePage`. `navigate` requires a truthy `url`, invokes `page.goto`,
then emits `Page.frameNavigated` and `Page.loadEventFired` and returns the
navigate result. `reload` invokes `page.reload` and returns `{}`.
`getFrameTree` returns a single-frame tree whose frame id is
`session.defaultTargetId`. `captureScreenshot` forwards options to
`page.screenshot`. Any other command is logged and degrades to `{}`.
The page state after a backend call is written back under `targetId`,
modelling the in-place mutation of the shared `Page` object. -/
def handlePage (s : CDPSession) (b : Backend) (targetId : String)
    (page : PageState) (fresh : String) (now : Int) (command : String)
    (params : Params) : HandlerOut :=
  if command = "navigate" then
    match strOpt params.url with
    | none => ⟨s, [], .error "url is required"⟩
    | some url =>
      match b.goto page url with
      | .error m => ⟨s, [], .error m⟩
      | .ok (resp, page2) =>
        ⟨{ s with pages := mapSet s.pages targetId page2 },
         [frameNavigatedEvent s page2.url,
          .event "Page.loadEventFired" (.obj [("timestamp", .num now)])],
         .ok (navigateResult s fresh resp)⟩
  else if command = "reload" then
    match b.reloadPage page with
    | .error m => ⟨s, [], .error m⟩
    | .ok page2 =>
      ⟨{ s with pages := mapSet s.pages targetId page2 }, [], .ok (.obj [])⟩
  else if command = "getFrameTree" then
    ⟨s, [],
     .ok (.obj [("frameTree",
       .obj [("frame",
              .obj [("id", .str s.defaultTargetId),
                    ("loaderId", .str fresh),
                    ("url", .str page.url),
                    ("securityOrigin",
                     .str (if page.url = "" then "" else urlOrigin page.url)),
                    ("mimeType", .str "text/html")]),
             ("childFrames", .arr [])])])⟩
  else if command = "captureScreenshot" then
    match b.screenshot page
        ⟨strOr params.format "png",
         if strOr params.format "png" = "jpeg" then params.quality else none,
         params.clip, params.fullPage⟩ with
    | .error m => ⟨s, [], .error m⟩
    | .ok data => ⟨s, [], .ok (.obj [("data", .str data)])⟩
  else
    ⟨s, [], .ok (.obj [])⟩

/-- `handleRuntime`. `evaluate` requires a truthy `expression`, invokes
`page.evaluate` and repackages the page-context result through
`evaluateResponse` (dropping `isError`); a rejected evaluate propagates as a
thrown error. Any other command is logged and degrades to `{}`. -/
def handleRuntime (s : CDPSession) (b : Backend) (page : PageState)
    (command : String) (params : Params) : HandlerOut :=
  if command = "evaluate" then
    match strOpt params.expression with
    | none => ⟨s, [], .error "expression is required"⟩
    | some expr =>
      match b.evalJS page expr with
      | .thrown m => ⟨s, [], .error m⟩
      | .ok ty v => ⟨s, [], .ok (evaluateResponse ⟨ty, v, false⟩)⟩
      | .pageError m =>
        ⟨s, [], .ok (evaluateResponse ⟨"string", .str m, true⟩)⟩
  else
    ⟨s, [], .ok (.obj [])⟩

/-- `handleCDPMethod`: split the method into domain and command, resolve the
target (`params.targetId` or the session default), and dispatch. Only the
`Page`, `Runtime` and `Input` branches check that the resolved target exists
(`if (!page) throw`); `Browser`, `Target` and the unknown-domain default do
not. The default branch returns `{}` (the degradation path). `handleInput`
acknowledges every command with `{}`. -/
def handleCDPMethod (s : CDPSession) (b : Backend) (fresh : String)
    (now : Int) (method : String) (params : Params) : HandlerOut :=
  if (splitMethod method).1 = "Browser" then
    handleBrowser s b (commandOf method)
  else if (splitMethod method).1 = "Target" then
    handleTarget s b fresh (commandOf method) params
  else if (splitMethod method).1 = "Page" then
    match mapGet s.pages (resolveTargetId s params) with
    | none => ⟨s, [], .error ("Target not found: " ++ resolveTargetId s params)⟩
    | some page =>
      handlePage s b (resolveTargetId s params) page fresh now
        (commandOf method) params
  else if (splitMethod method).1 = "Runtime" then
    match mapGet s.pages (resolveTargetId s params) with
    | none => ⟨s, [], .error ("Target not found: " ++ resolveTargetId s params)⟩
    | some page => handleRuntime s b page (commandOf method) params
  else if (splitMethod method).1 = "Input" then
    match mapGet s.pages (resolveTargetId s params) with
    | none => ⟨s, [], .error ("Target not found: " ++ resolveTargetId s params)⟩
    | some _ => ⟨s, [], .ok (.obj [])⟩
  else
    ⟨s, [], .ok (.obj [])⟩

/-- The single frame the message handler sends after `handleCDPMethod`
settles: `sendResponse(ws, request.id, result)` on a returned result,
`sendError(ws, request.id, -32000, message)` on a thrown error. -/
def replyFor (i : Int) : Except String JVal → Frame
  | .ok v => .response i v
  | .error m => .error i (-32000) m

/-- The `message` event handler of `initCDPSession`: a payload that fails
`JSON.parse` is logged and dropped (no frame, no state change); a parsed
request is dispatched through `handleCDPMethod` and answered with exactly one
response or error frame after the handler events. -/
def onMessage (s : CDPSession) (b : Backend) (fresh : String) (now : Int) :
    InboundMsg → CDPSession × List Frame
  | .malformed => (s, [])
  | .request req =>
    ((handleCDPMethod s b fresh now req.method req.params).session,
     (handleCDPMethod s b fresh now req.method req.params).events ++
       [replyFor req.id (handleCDPMethod s b fresh now req.method req.params).result])

/-- The `close` event handler of `initCDPSession`: it invokes
`session.browser.close()` unconditionally, catching and logging any error. -/
def onClose (s : CDPSession) : CDPSession :=
  { s with browserCloseCount := s.browserCloseCount + 1 }

/-- The session built by `initCDPSession` after a successful launch: one
default target mapped to the freshly created page, counters at 1, empty maps,
interception off, and no `browser.close()` issued yet. -/
def initialSession (defaultId : String) (page : PageState) : CDPSession :=
  { pages := [(defaultId, page)]
    defaultTargetId := defaultId
    nodeIdCounter := 1
    nodeMap := []
    objectIdCounter := 1
    scriptsToEvaluateOnNewDocument := []
    extraHTTPHeaders := []
    requestInterceptionEnabled := false
    browserCloseCount := 0 }

/-- A blank backend page. -/
def blankPage : PageState := ⟨"about:blank", ""⟩

/-- A concrete session for witnesses: default target `t0` on a blank page. -/
def sampleSession : CDPSession := initialSession "t0" blankPage

/-- A concrete backend oracle for witnesses: every call succeeds. -/
def sampleBackend : Backend :=
  { newPage := .ok blankPage
    goto := fun _ u => .ok (some true, ⟨u, "loaded"⟩)
    reloadPage := fun p => .ok p
    screenshot := fun _ _ => .ok "aGk="
    evalJS := fun _ _ => .ok "number" (.num 3)
    closePage := fun _ => .ok ()
    closeBrowser := fun _ => .ok () }

/-- A backend oracle whose page-context evaluation throws: the inner function
catches the error and reports it with the `isError` flag set. -/
def evalErrorBackend : Backend :=
  { sampleBackend with
    evalJS := fun _ _ => .pageError "nosuchfn is not defined" }

/-- A session with a second, non-default target `t1` beside the default `t0`. -/
def twoTargetSession : CDPSession :=
  { sampleSession with pages := [("t0", blankPage), ("t1", blankPage)] }

/-- A handler invocation sent only event frames through the socket (responses
and errors are sent by the message handler afterwards). -/
def eventsOnly (h : HandlerOut) : Bool := h.events.all isEvent

/-- One atomic step of the per-message handler, at the granularity fixed by
its single suspension point: the handler for message `i` runs synchronously
from the `message` event through `JSON.parse` and `handleCDPMethod` up to the
point where the backend call is issued (`start i`), suspends on `await`, and
on completion of the backend call emits its events and its response
(`finish i`). There is no lock, queue or other synchronization between
handlers in the source. -/
inductive CStep where
  | start (i : Nat)
  | finish (i : Nat)
deriving DecidableEq

/-- The step's message index is in range. -/
def stepIndexOk (n : Nat) : CStep → Bool
  | .start i => Nat.blt i n
  | .finish i => Nat.blt i n

/-- A trace of handler steps for `n` inbound messages is one the message
handler can produce exactly when: each message starts and finishes once,
every step belongs to a message, starts occur in message-delivery order
(WebSocket `message` events are dispatched in arrival order), and each
message starts before it finishes. No cross-message constraint exists in the
source: nothing orders one message's `finish` before a later message's
`start`. -/
def admissible (n : Nat) (tr : List CStep) : Prop :=
  (∀ i < n, tr.count (CStep.start i) = 1 ∧ tr.count (CStep.finish i) = 1) ∧
  (∀ s ∈ tr, stepIndexOk n s = true) ∧
  (∀ i < n, ∀ j < i, tr.indexOf (CStep.start j) < tr.indexOf (CStep.start i)) ∧
  (∀ i < n, tr.indexOf (CStep.start i) < tr.indexOf (CStep.finish i))

/-- Per-target serialization: whenever two messages address the same target
(`tgts` lists each message's resolved target), the earlier message's response
is sent before the later message begins its backend call. -/
def serializedPerTarget (tgts : List String) (tr : List CStep) : Prop :=
  ∀ i < tgts.length, ∀ j < i, tgts[i]? = tgts[j]? →
    tr.indexOf (CStep.finish j) < tr.indexOf (CStep.start i)

/-- Two same-target messages where the second begins its backend call while
the first is still awaiting its own. -/
def interleavedTrace : List CStep :=
  [.start 0, .start 1, .finish 0, .finish 1]

/-- The fully serialized schedule of the same two messages. -/
def serialTrace : List CStep :=
  [.start 0, .finish 0, .start 1, .finish 1]

/-! ## Basic lemmas about the registry map and the frame emitters -/

theorem mapGet_mapSet_self {α : Type} (m : List (String × α)) (k : String)
    (v : α) : mapGet (mapSet m k v) k = some v := by
  induction m with
  | nil => simp [mapSet, mapGet]
  | cons kv rest ih =>
    obtain ⟨k2, v2⟩ := kv
    by_cases h : k2 = k
    · simp [mapSet, mapGet, h]
    · simp [mapSet, mapGet, h, ih]

theorem mapGet_mapDelete_self {α : Type} (m : List (String × α)) (k : String) :
    mapGet (mapDelete m k) k = none := by
  induction m with
  | nil => rfl
  | cons kv rest ih =>
    obtain ⟨k2, v2⟩ := kv
    by_cases h : k2 = k
    · simp [mapDelete, h, ih]
    · simp [mapDelete, mapGet, h, ih]

theorem mapDelete_key_ne {α : Type} (m : List (String × α)) (k : String) :
    ∀ kv ∈ mapDelete m k, kv.1 ≠ k := by
  induction m with
  | nil => intro kv h; cases h
  | cons p rest ih =>
    obtain ⟨k2, v2⟩ := p
    by_cases h : k2 = k
    · simpa [mapDelete, h] using ih
    · intro kv hkv
      rcases (by simpa [mapDelete, h] using hkv :
          kv = (k2, v2) ∨ kv ∈ mapDelete rest k) with h1 | h1
      · simpa [h1] using h
      · exact ih kv h1

theorem isReplyTo_replyFor (i : Int) (r : Except String JVal) :
    isReplyTo i (replyFor i r) = true := by
  cases r <;> simp [replyFor, isReplyTo]

theorem isReplyTo_false_of_isEvent (i : Int) (f : Frame)
    (h : isEvent f = true) : isReplyTo i f = false := by
  cases f with
  | response j r => simp [isEvent] at h
  | error j c m => simp [isEvent] at h
  | event m p => rfl

theorem countP_isReplyTo_zero (l : List Frame) (i : Int)
    (h : l.all isEvent = true) : l.countP (isReplyTo i) = 0 := by
  induction l with
  | nil => rfl
  | cons f t ih =>
    simp only [List.all_cons, Bool.and_eq_true] at h
    rw [List.countP_cons, isReplyTo_false_of_isEvent i f h.1, ih h.2]
    simp

/-! ## Each domain handler emits only event frames before its reply -/

theorem handleBrowser_eventsOnly (s : CDPSession) (b : Backend) (c : String) :
    eventsOnly (handleBrowser s b c) = true := by
  unfold handleBrowser eventsOnly
  repeat' split
  all_goals rfl

theorem handleTarget_eventsOnly (s : CDPSession) (b : Backend) (fresh : String)
    (c : String) (params : Params) :
    eventsOnly (handleTarget s b fresh c params) = true := by
  unfold handleTarget eventsOnly
  repeat' split
  all_goals rfl

theorem handlePage_eventsOnly (s : CDPSession) (b : Backend) (tid : String)
    (page : PageState) (fresh : String) (now : Int) (c : String)
    (params : Params) :
    eventsOnly (handlePage s b tid page fresh now c params) = true := by
  unfold handlePage eventsOnly
  repeat' split
  all_goals rfl

theorem handleRuntime_eventsOnly (s : CDPSession) (b : Backend)
    (page : PageState) (c : String) (params : Params) :
    eventsOnly (handleRuntime s b page c params) = true := by
  unfold handleRuntime eventsOnly
  repeat' split
  all_goals rfl

theorem handleCDPMethod_eventsOnly (s : CDPSession) (b : Backend)
    (fresh : String) (now : Int) (m : String) (params : Params) :
    eventsOnly (handleCDPMethod s b fresh now m params) = true := by
  unfold handleCDPMethod
  repeat' split
  all_goals first
    | rfl
    | exact handleBrowser_eventsOnly _ _ _
    | exact handleTarget_eventsOnly _ _ _ _ _
    | exact handlePage_eventsOnly _ _ _ _ _ _ _ _
    | exact handleRuntime_eventsOnly _ _ _ _ _

/-! ## Claim theorems -/

/-- Claim C1: for every syntactically valid request frame the message handler
sends exactly one response frame carrying the request's id (every non-event
frame it sends is addressed to that id), and a method whose domain is
unrecognized yields exactly `{id, result:{}}` — not a dropped frame, not an
error frame. -/
theorem one_reply_per_request_and_degradation (s : CDPSession) (b : Backend)
    (fresh : String) (now : Int) (req : CDPRequest) :
    (onMessage s b fresh now (.request req)).2.countP (isReplyTo req.id) = 1 ∧
    (∀ f ∈ (onMessage s b fresh now (.request req)).2,
        isEvent f = false → isReplyTo req.id f = true) ∧
    ((splitMethod req.method).1 ∉
        (["Browser", "Target", "Page", "Runtime", "Input"] : List String) →
      (onMessage s b fresh now (.request req)).2 =
        [Frame.response req.id (JVal.obj [])]) := by
  refine ⟨?_, ?_, ?_⟩
  · show ((handleCDPMethod s b fresh now req.method req.params).events ++
        [replyFor req.id (handleCDPMethod s b fresh now req.method req.params).result]).countP
        (isReplyTo req.id) = 1
    rw [List.countP_append,
      countP_isReplyTo_zero _ _ (handleCDPMethod_eventsOnly s b fresh now req.method req.params),
      List.countP_cons, isReplyTo_replyFor]
    simp
  · intro f hf hev
    rcases List.mem_append.mp hf with h | h
    · have h2 := List.all_eq_true.mp
        (handleCDPMethod_eventsOnly s b fresh now req.method req.params) f h
      rw [hev] at h2
      cases h2
    · have h2 : f = replyFor req.id
          (handleCDPMethod s b fresh now req.method req.params).result := by
        simpa using h
      rw [h2]
      exact isReplyTo_replyFor _ _
  · intro hdom
    have hb : handleCDPMethod s b fresh now req.method req.params =
        ⟨s, [], .ok (.obj [])⟩ := by
      unfold handleCDPMethod
      split_ifs with h1 h2 h3 h4 h5
      · simp [h1] at hdom
      · simp [h2] at hdom
      · simp [h3] at hdom
      · simp [h4] at hdom
      · simp [h5] at hdom
      · rfl
    show (handleCDPMethod s b fresh now req.method req.params).events ++
        [replyFor req.id (handleCDPMethod s b fresh now req.method req.params).result] = _
    rw [hb]
    rfl

/-- Claim C1 witness: a request for the unregistered domain `Foo` is answered
with exactly `{id:7, result:{}}`. -/
theorem one_reply_per_request_and_degradation_witness :
    (onMessage sampleSession sampleBackend "u1" 0
        (.request ⟨7, "Foo.bar", {}⟩)).2 = [Frame.response 7 (JVal.obj [])] := by
  have h := one_reply_per_request_and_degradation sampleSession sampleBackend
    "u1" 0 ⟨7, "Foo.bar", {}⟩
  exact h.2.2 (by decide)

/-- Claim C2 counterexample: `Page.zzz` names the known domain `Page` with a
command it does not implement, yet the dispatcher answers with the success
frame `{id, result:{}}` — no error frame is sent. -/
theorem unknown_page_command_success :
    (onMessage sampleSession sampleBackend "u1" 0
        (.request ⟨1, "Page.zzz", {}⟩)).2 = [Frame.response 1 (JVal.obj [])] ∧
    ((onMessage sampleSession sampleBackend "u1" 0
        (.request ⟨1, "Page.zzz", {}⟩)).2.all fun f => !isErrorFrame f) = true :=
  ⟨rfl, rfl⟩

/-- Claim C2 (amended): an unknown command yields the protocol error frame
`{id, error:{code:-32000, message}}` only for the `Browser` and `Target`
domains; for the `Page` and `Runtime` domains an unknown command degrades to
the success frame `{id, result:{}}` (when the target resolves). -/
theorem unknown_command_behavior (s : CDPSession) (b : Backend)
    (fresh : String) (now : Int) (i : Int) (params : Params) (m : String)
    (cmd : String) (page : PageState) :
    (splitMethod m = ("Browser", some cmd) →
      cmd ∉ (["getVersion", "close"] : List String) →
      onMessage s b fresh now (.request ⟨i, m, params⟩) =
        (s, [Frame.error i (-32000) ("Unknown Browser method: " ++ cmd)])) ∧
    (splitMethod m = ("Target", some cmd) →
      cmd ∉ (["createTarget", "closeTarget", "getTargets",
              "attachToTarget"] : List String) →
      onMessage s b fresh now (.request ⟨i, m, params⟩) =
        (s, [Frame.error i (-32000) ("Unknown Target method: " ++ cmd)])) ∧
    (splitMethod m = ("Page", some cmd) →
      cmd ∉ (["navigate", "reload", "getFrameTree",
              "captureScreenshot"] : List String) →
      mapGet s.pages (resolveTargetId s params) = some page →
      onMessage s b fresh now (.request ⟨i, m, params⟩) =
        (s, [Frame.response i (JVal.obj [])])) ∧
    (splitMethod m = ("Runtime", some cmd) →
      cmd ≠ "evaluate" →
      mapGet s.pages (resolveTargetId s params) = some page →
      onMessage s b fresh now (.request ⟨i, m, params⟩) =
        (s, [Frame.response i (JVal.obj [])])) := by
  refine ⟨?_, ?_, ?_, ?_⟩
  · intro hm hcmd
    have hd : (splitMethod m).1 = "Browser" := by rw [hm]
    have hc : commandOf m = cmd := by simp [commandOf, hm]
    simp only [List.mem_cons, List.not_mem_nil, or_false, not_or] at hcmd
    obtain ⟨h1, h2⟩ := hcmd
    simp [onMessage, handleCDPMethod, handleBrowser, hd, hc, h1, h2, replyFor]
  · intro hm hcmd
    have hd : (splitMethod m).1 = "Target" := by rw [hm]
    have hc : commandOf m = cmd := by simp [commandOf, hm]
    simp only [List.mem_cons, List.not_mem_nil, or_false, not_or] at hcmd
    obtain ⟨h1, h2, h3, h4⟩ := hcmd
    simp [onMessage, handleCDPMethod, handleTarget, hd, hc, h1, h2, h3, h4,
      replyFor]
  · intro hm hcmd hpage
    have hd : (splitMethod m).1 = "Page" := by rw [hm]
    have hc : commandOf m = cmd := by simp [commandOf, hm]
    simp only [List.mem_cons, List.not_mem_nil, or_false, not_or] at hcmd
    obtain ⟨h1, h2, h3, h4⟩ := hcmd
    simp [onMessage, handleCDPMethod, handlePage, hd, hc, hpage, h1, h2, h3,
      h4, replyFor]
  · intro hm hne hpage
    have hd : (splitMethod m).1 = "Runtime" := by rw [hm]
    have hc : commandOf m = cmd := by simp [commandOf, hm]
    simp [onMessage, handleCDPMethod, handleRuntime, hd, hc, hpage, hne,
      replyFor]

/-- Claim C2 (amended) witness: `Browser.bogus` is answered with the error
frame `{id:2, error:{code:-32000, message:"Unknown Browser method: bogus"}}`. -/
theorem unknown_command_behavior_witness :
    onMessage sampleSession sampleBackend "u1" 0
        (.request ⟨2, "Browser.bogus", {}⟩) =
      (sampleSession,
       [Frame.error 2 (-32000) "Unknown Browser method: bogus"]) := by
  have h := unknown_command_behavior sampleSession sampleBackend "u1" 0 2 {}
    "Browser.bogus" "bogus" blankPage
  exact h.1 (by decide) (by decide)

/-- Claim C3 (code bug): when the page-context evaluation of the expression
fails, the object built in the page context carries `isError := true` with the
backend error message, but the response the shim sends is a success frame
whose payload keeps only `type` and `value` — the `isError` flag is dropped
by the repackaging in `handleRuntime`, so the emitted result payload carries
the error message without any is-error flag (and no protocol error frame is
sent). -/
theorem evaluate_drops_isError_flag :
    innerEvalResult (EvalOutcome.pageError "nosuchfn is not defined") =
      some ⟨"string", JVal.str "nosuchfn is not defined", true⟩ ∧
    (onMessage sampleSession evalErrorBackend "u1" 0
        (.request ⟨5, "Runtime.evaluate",
          {expression := some "nosuchfn()"}⟩)).2 =
      [Frame.response 5 (JVal.obj [("result",
          JVal.obj [("type", JVal.str "string"),
                    ("value", JVal.str "nosuchfn is not defined")])])] :=
  ⟨rfl, rfl⟩

/-- Claim C4: when the backend `goto` completes, `Page.navigate` produces, in
this fixed order, the `Page.frameNavigated` event, then the
`Page.loadEventFired` event, then the response frame; the response carries
the generated frame identifier (`session.defaultTargetId`) and loader
identifier (the fresh `crypto.randomUUID()`), and an `errorText` field when
navigation did not succeed (`navigateResult` omits it exactly when
`response?.ok()` is truthy). -/
theorem navigate_events_then_response (s : CDPSession) (b : Backend)
    (fresh : String) (now : Int) (i : Int) (params : Params) (url : String)
    (page page2 : PageState) (resp : Option Bool)
    (hurl : strOpt params.url = some url)
    (hpage : mapGet s.pages (resolveTargetId s params) = some page)
    (hgoto : b.goto page url = .ok (resp, page2)) :
    (onMessage s b fresh now (.request ⟨i, "Page.navigate", params⟩)).2 =
      [frameNavigatedEvent s page2.url,
       Frame.event "Page.loadEventFired"
         (JVal.obj [("timestamp", JVal.num now)]),
       Frame.response i (navigateResult s fresh resp)] := by
  have hd : (splitMethod "Page.navigate").1 = "Page" := rfl
  have hc : commandOf "Page.navigate" = "navigate" := rfl
  simp [onMessage, handleCDPMethod, handlePage, hd, hc, hpage, hurl, hgoto,
    replyFor]

/-- Claim C4 witness: navigating the default target to a reachable URL emits
the two events and then the navigate response, in that order. -/
theorem navigate_events_then_response_witness :
    (onMessage sampleSession sampleBackend "uuid-loader" 0
        (.request ⟨3, "Page.navigate", {url := some "https://example.com/a"}⟩)).2 =
      [frameNavigatedEvent sampleSession "https://example.com/a",
       Frame.event "Page.loadEventFired" (JVal.obj [("timestamp", JVal.num 0)]),
       Frame.response 3 (navigateResult sampleSession "uuid-loader" (some true))] :=
  navigate_events_then_response sampleSession sampleBackend "uuid-loader" 0 3
    {url := some "https://example.com/a"} "https://example.com/a" blankPage
    ⟨"https://example.com/a", "loaded"⟩ (some true) rfl rfl rfl

/-- Claim C5 counterexample: `Browser.getVersion` sent with a `targetId` that
is absent from the registry does not produce a target-not-found error — the
`Browser` handler is invoked and its version result is returned. -/
theorem absent_target_not_always_checked :
    mapGet sampleSession.pages "missing" = none ∧
    (onMessage sampleSession sampleBackend "u1" 0
        (.request ⟨9, "Browser.getVersion", {targetId := some "missing"}⟩)).2 =
      [Frame.response 9 browserVersionResult] :=
  ⟨rfl, rfl⟩

/-- Claim C5 (amended): the target-presence check guards only the `Page`,
`Runtime` and `Input` domains — for those, an absent resolved target yields
`{id, error:{code:-32000, message:"Target not found: <id>"}}` with the session
unchanged and no handler effects; `Browser` methods (e.g. `getVersion`) are
dispatched without any target check. -/
theorem target_check_scope (s : CDPSession) (b : Backend) (fresh : String)
    (now : Int) (i : Int) (params : Params) (m : String) :
    ((splitMethod m).1 = "Page" ∨ (splitMethod m).1 = "Runtime" ∨
        (splitMethod m).1 = "Input" →
      mapGet s.pages (resolveTargetId s params) = none →
      onMessage s b fresh now (.request ⟨i, m, params⟩) =
        (s, [Frame.error i (-32000)
              ("Target not found: " ++ resolveTargetId s params)])) ∧
    (onMessage s b fresh now (.request ⟨i, "Browser.getVersion", params⟩) =
      (s, [Frame.response i browserVersionResult])) := by
  constructor
  · intro hdom hnone
    rcases hdom with h | h | h <;>
      simp [onMessage, handleCDPMethod, h, hnone, replyFor]
  · have hd : (splitMethod "Browser.getVersion").1 = "Browser" := rfl
    have hc : commandOf "Browser.getVersion" = "getVersion" := rfl
    simp [onMessage, handleCDPMethod, handleBrowser, hd, hc, replyFor]

/-- Claim C5 (amended) witness: `Runtime.evaluate` addressed to the absent
target `missing` yields the target-not-found error frame and leaves the
session unchanged. -/
theorem target_check_scope_witness :
    onMessage sampleSession sampleBackend "u1" 0
        (.request ⟨4, "Runtime.evaluate", {targetId := some "missing"}⟩) =
      (sampleSession, [Frame.error 4 (-32000) "Target not found: missing"]) := by
  have h := target_check_scope sampleSession sampleBackend "u1" 0 4
    {targetId := some "missing"} "Runtime.evaluate"
  exact h.1 (Or.inr (Or.inl rfl)) rfl

/-- Claim C6: after `Target.createTarget` registers the fresh identifier and
`Target.closeTarget` succeeds on it, the identifier is gone from the registry
(so `Target.getTargets`, which enumerates exactly the registry, no longer
lists it), and a second `Target.closeTarget` on the same identifier yields the
error frame `{id, error:{code:-32000, message:"Target not found: <id>"}}` and
changes nothing. -/
theorem create_close_lifecycle (s : CDPSession) (b : Backend) (t : String)
    (now : Int) (pg : PageState)
    (hnew : b.newPage = .ok pg)
    (hclose : b.closePage pg = .ok ()) :
    onMessage s b t now (.request ⟨1, "Target.createTarget", {}⟩) =
      ({ s with pages := mapSet s.pages t pg },
       [Frame.event "Target.targetCreated"
          (JVal.obj [("targetInfo", targetInfoJson t pg)]),
        Frame.response 1 (JVal.obj [("targetId", JVal.str t)])]) ∧
    mapGet (mapSet s.pages t pg) t = some pg ∧
    onMessage { s with pages := mapSet s.pages t pg } b "u2" now
        (.request ⟨2, "Target.closeTarget", {targetId := some t}⟩) =
      ({ s with pages := mapDelete (mapSet s.pages t pg) t },
       [Frame.event "Target.targetDestroyed"
          (JVal.obj [("targetId", JVal.str t)]),
        Frame.response 2 (JVal.obj [("success", JVal.bool true)])]) ∧
    mapGet (mapDelete (mapSet s.pages t pg) t) t = none ∧
    (∀ kv ∈ mapDelete (mapSet s.pages t pg) t, kv.1 ≠ t) ∧
    onMessage { s with pages := mapDelete (mapSet s.pages t pg) t } b "u3" now
        (.request ⟨3, "Target.getTargets", {}⟩) =
      ({ s with pages := mapDelete (mapSet s.pages t pg) t },
       [Frame.response 3 (JVal.obj [("targetInfos",
          JVal.arr ((mapDelete (mapSet s.pages t pg) t).map
            (fun kv => targetInfoJson kv.1 kv.2)))])]) ∧
    onMessage { s with pages := mapDelete (mapSet s.pages t pg) t } b "u4" now
        (.request ⟨4, "Target.closeTarget", {targetId := some t}⟩) =
      ({ s with pages := mapDelete (mapSet s.pages t pg) t },
       [Frame.error 4 (-32000) ("Target not found: " ++ t)]) := by
  have hdC : (splitMethod "Target.createTarget").1 = "Target" := rfl
  have hcC : commandOf "Target.createTarget" = "createTarget" := rfl
  have hdX : (splitMethod "Target.closeTarget").1 = "Target" := rfl
  have hcX : commandOf "Target.closeTarget" = "closeTarget" := rfl
  have hdG : (splitMethod "Target.getTargets").1 = "Target" := rfl
  have hcG : commandOf "Target.getTargets" = "getTargets" := rfl
  refine ⟨?_, mapGet_mapSet_self s.pages t pg, ?_,
    mapGet_mapDelete_self _ t, mapDelete_key_ne _ t, ?_, ?_⟩
  · simp [onMessage, handleCDPMethod, handleTarget, hdC, hcC, hnew, replyFor,
      strOr, strOpt]
  · simp [onMessage, handleCDPMethod, handleTarget, hdX, hcX,
      mapGet_mapSet_self, hclose, replyFor]
  · simp [onMessage, handleCDPMethod, handleTarget, hdG, hcG, replyFor]
  · simp [onMessage, handleCDPMethod, handleTarget, hdX, hcX,
      mapGet_mapDelete_self, replyFor]

/-- Claim C6 witness: the second `Target.closeTarget` on the already-closed
target `t1` yields the target-not-found error frame. -/
theorem create_close_lifecycle_witness :
    onMessage { sampleSession with
        pages := mapDelete (mapSet sampleSession.pages "t1" blankPage) "t1" }
      sampleBackend "u4" 0
      (.request ⟨4, "Target.closeTarget", {targetId := some "t1"}⟩) =
      ({ sampleSession with
          pages := mapDelete (mapSet sampleSession.pages "t1" blankPage) "t1" },
       [Frame.error 4 (-32000) "Target not found: t1"]) :=
  (create_close_lifecycle sampleSession sampleBackend "t1" 0 blankPage
    rfl rfl).2.2.2.2.2.2

/-- Claim C7: an inbound message whose payload fails `JSON.parse` produces no
frame of any kind and leaves the session state unchanged. -/
theorem malformed_silently_discarded (s : CDPSession) (b : Backend)
    (fresh : String) (now : Int) :
    onMessage s b fresh now .malformed = (s, []) := rfl

/-- Claim C8 counterexample: a `Browser.close` command followed by transport
close issues the backend `browser.close()` twice — the release is not
performed exactly once per session and `Browser.close` is not deduplicated
against the close-handler release. -/
theorem double_release_close_then_transport :
    sampleSession.browserCloseCount = 0 ∧
    (onMessage sampleSession sampleBackend "u1" 0
        (.request ⟨1, "Browser.close", {}⟩)).2 =
      [Frame.response 1 (JVal.obj [])] ∧
    (onClose (onMessage sampleSession sampleBackend "u1" 0
        (.request ⟨1, "Browser.close", {}⟩)).1).browserCloseCount = 2 :=
  ⟨rfl, rfl, rfl⟩

/-- Claim C8 (amended): the backend session is released once per teardown
action rather than exactly once per session: every `Browser.close` command
issues one more `browser.close()` (answering `{}` on success and an error
frame if the backend close throws), and transport close always issues one
more `browser.close()` — even after a prior release — with any error caught. -/
theorem release_once_per_teardown_action (s : CDPSession) (b : Backend)
    (fresh : String) (now : Int) (i : Int) (params : Params) :
    ((onMessage s b fresh now
        (.request ⟨i, "Browser.close", params⟩)).1.browserCloseCount =
      s.browserCloseCount + 1) ∧
    ((onClose s).browserCloseCount = s.browserCloseCount + 1) ∧
    (b.closeBrowser s.browserCloseCount = .ok () →
      (onMessage s b fresh now (.request ⟨i, "Browser.close", params⟩)).2 =
        [Frame.response i (JVal.obj [])]) ∧
    (∀ msg, b.closeBrowser s.browserCloseCount = .error msg →
      (onMessage s b fresh now (.request ⟨i, "Browser.close", params⟩)).2 =
        [Frame.error i (-32000) msg]) := by
  have hd : (splitMethod "Browser.close").1 = "Browser" := rfl
  have hc : commandOf "Browser.close" = "close" := rfl
  refine ⟨?_, rfl, ?_, ?_⟩
  · cases hb : b.closeBrowser s.browserCloseCount <;>
      simp [onMessage, handleCDPMethod, handleBrowser, hd, hc, hb]
  · intro hok
    simp [onMessage, handleCDPMethod, handleBrowser, hd, hc, hok, replyFor]
  · intro msg herr
    simp [onMessage, handleCDPMethod, handleBrowser, hd, hc, herr, replyFor]

/-- Claim C8 (amended) witness: with a backend whose close succeeds, the
`Browser.close` command is answered with `{id:1, result:{}}`. -/
theorem release_once_per_teardown_action_witness :
    (onMessage sampleSession sampleBackend "u1" 0
        (.request ⟨1, "Browser.close", {}⟩)).2 =
      [Frame.response 1 (JVal.obj [])] := by
  have h := release_once_per_teardown_action sampleSession sampleBackend
    "u1" 0 1 {}
  exact h.2.2.1 rfl

/-- Claim C9 counterexample: with two messages addressed to the same target,
the schedule in which the second message begins its backend call before the
first message's response is sent is admissible for the message handler (which
has no per-target lock: its only ordering constraints are in-order `message`
event delivery and each handler's own start-before-finish), so per-target
serialization does not hold. -/
theorem same_target_interleaving_admissible :
    admissible 2 interleavedTrace ∧
    ¬ serializedPerTarget ["t0", "t0"] interleavedTrace := by
  constructor
  · unfold admissible stepIndexOk interleavedTrace
    decide
  · unfold serializedPerTarget interleavedTrace
    decide

/-- Claim C9 (amended): commands within a session are not serialized per
target: handlers start in message-arrival order, but a second command against
the same target may begin executing against the backend before the first
command's response has been sent (the interleaved schedule is admissible and
unserialized for any target), while the fully serial schedule is also
admissible — the code enforces neither. -/
theorem no_per_target_serialization (t : String) :
    admissible 2 interleavedTrace ∧
    ¬ serializedPerTarget [t, t] interleavedTrace ∧
    admissible 2 serialTrace ∧
    serializedPerTarget [t, t] serialTrace := by
  refine ⟨?_, ?_, ?_, ?_⟩
  · unfold admissible stepIndexOk interleavedTrace
    decide
  · intro h
    exact absurd (h 1 (by simp) 0 (by simp) rfl) (by decide)
  · unfold admissible stepIndexOk serialTrace
    decide
  · intro i hi j hj heq
    have hi2 : i < 2 := by simpa using hi
    interval_cases i
    · omega
    · interval_cases j
      decide

/-- Claim C9 (amended) witness: the amended statement at the concrete target
identifier `x`. -/
theorem no_per_target_serialization_witness :
    admissible 2 interleavedTrace ∧
    ¬ serializedPerTarget ["x", "x"] interleavedTrace ∧
    admissible 2 serialTrace ∧
    serializedPerTarget ["x", "x"] serialTrace :=
  no_per_target_serialization "x"

/-- Claim C10: the frame identifier placed in the `Page.frameNavigated` event
and in the `Page.navigate` / `Page.getFrameTree` response payloads is always
`session.defaultTargetId`, for every resolved target — including a
non-default target addressed via `params.targetId`. -/
theorem frame_id_always_default_target (s : CDPSession) (b : Backend)
    (fresh : String) (now : Int) (i i2 : Int) (params : Params) (url : String)
    (page page2 : PageState) (resp : Option Bool)
    (hurl : strOpt params.url = some url)
    (hpage : mapGet s.pages (resolveTargetId s params) = some page)
    (hgoto : b.goto page url = .ok (resp, page2)) :
    ((onMessage s b fresh now (.request ⟨i, "Page.navigate", params⟩)).2.head? =
      some (Frame.event "Page.frameNavigated"
        (JVal.obj [("frame",
          JVal.obj [("id", JVal.str s.defaultTargetId),
                    ("url", JVal.str page2.url),
                    ("securityOrigin", JVal.str (urlOrigin page2.url)),
                    ("mimeType", JVal.str "text/html")])]))) ∧
    ((onMessage s b fresh now (.request ⟨i, "Page.navigate", params⟩)).2.getLast? =
      some (Frame.response i (JVal.obj
        (("frameId", JVal.str s.defaultTargetId) ::
         ("loaderId", JVal.str fresh) ::
         (if resp = some true then []
          else [("errorText", JVal.str "Navigation failed")]))))) ∧
    ((onMessage s b fresh now (.request ⟨i2, "Page.getFrameTree", params⟩)).2 =
      [Frame.response i2 (JVal.obj [("frameTree",
        JVal.obj [("frame",
          JVal.obj [("id", JVal.str s.defaultTargetId),
                    ("loaderId", JVal.str fresh),
                    ("url", JVal.str page.url),
                    ("securityOrigin",
                     JVal.str (if page.url = "" then "" else urlOrigin page.url)),
                    ("mimeType", JVal.str "text/html")]),
          ("childFrames", JVal.arr [])])])]) := by
  have hd : (splitMethod "Page.navigate").1 = "Page" := rfl
  have hc : commandOf "Page.navigate" = "navigate" := rfl
  have hd2 : (splitMethod "Page.getFrameTree").1 = "Page" := rfl
  have hc2 : commandOf "Page.getFrameTree" = "getFrameTree" := rfl
  have hout : (onMessage s b fresh now
      (.request ⟨i, "Page.navigate", params⟩)).2 =
      [frameNavigatedEvent s page2.url,
       Frame.event "Page.loadEventFired"
         (JVal.obj [("timestamp", JVal.num now)]),
       Frame.response i (navigateResult s fresh resp)] := by
    simp [onMessage, handleCDPMethod, handlePage, hd, hc, hpage, hurl, hgoto,
      replyFor]
  refine ⟨?_, ?_, ?_⟩
  · rw [hout]; rfl
  · rw [hout]
    simp [navigateResult, List.getLast?]
  · simp [onMessage, handleCDPMethod, handlePage, hd2, hc2, hpage, replyFor]

/-- Claim C10 witness: a `Page.navigate` addressed to the non-default target
`t1` still reports the default target `t0` as frame identifier in the
`Page.frameNavigated` event. -/
theorem frame_id_always_default_target_witness :
    (onMessage twoTargetSession sampleBackend "uuid-l" 0
        (.request ⟨6, "Page.navigate",
          {targetId := some "t1", url := some "https://example.com/a"}⟩)).2.head? =
      some (Frame.event "Page.frameNavigated"
        (JVal.obj [("frame",
          JVal.obj [("id", JVal.str "t0"),
                    ("url", JVal.str "https://example.com/a"),
                    ("securityOrigin", JVal.str "https://example.com"),
                    ("mimeType", JVal.str "text/html")])])) :=
  (frame_id_always_default_target twoTargetSession sampleBackend "uuid-l" 0 6 6
    {targetId := some "t1", url := some "https://example.com/a"}
    "https://example.com/a" blankPage ⟨"https://example.com/a", "loaded"⟩
    (some true) rfl rfl rfl).1

end CDPShim
